import Mathlib

/-!
# Verification of the lazy-paginated PDF rendering core (`src/pdf_viewer.py`)

Shallow embedding of the viewer's data model and operations:

* `PDFPageWidget` models the per-page widget (`PDFPageWidget` in the source):
  placeholder/rendered state, selection points, placeholder (display) size,
  whether a `fitz` page object is attached (`_page is not None`), and the
  currently shown pixmap's dimensions.
* `PDFViewer` models the viewer state (`PDFViewer` in the source): the open
  document, zoom, gesture bookkeeping, and the single-shot 150 ms re-render
  throttle timer.
* Geometry follows the `QVBoxLayout` of `PDFPageContainer`: pages are laid out
  top-aligned with a 10 px top margin and 20 px spacing, each widget's height
  being its fixed placeholder height.

Numbers: page sizes and zoom factors are rationals (`ℚ`); pixel quantities are
integers.  Python's `int(...)` truncation toward zero is `pyInt`; Python's
floor division `//` is `Int.fdiv`.
-/

/-- Python `int(q)`: truncation toward zero (`Int` division in Lean truncates
toward zero, matching CPython's `int` applied to a float/rational value). -/
def pyInt (q : ℚ) : Int :=
  Int.tdiv q.num (q.den : Int)

/-- Per-page widget state, embedding `PDFPageWidget.__init__` fields:
`_page` (here `pageLoaded : Bool` — whether a page object is attached),
`_zoom`, `_selection_start`/`_selection_end`, `_selected_text`,
`_is_selecting`, `_page_number`, `_is_rendered`, `_placeholder_size`
(split into `placeholderW`/`placeholderH`), plus the label's current pixmap
dimensions (`none` when no pixmap has been set). -/
structure PDFPageWidget where
  pageNumber : Int := -1
  zoom : ℚ := 1
  selectionStart : Option (Int × Int) := none
  selectionEnd : Option (Int × Int) := none
  selectedText : String := ""
  isSelecting : Bool := false
  isRendered : Bool := false
  placeholderW : Int := 0
  placeholderH : Int := 0
  pageLoaded : Bool := false
  pixmap : Option (Int × Int) := none
deriving DecidableEq, Repr

/-- `PDFPageWidget.set_placeholder`: record page number and placeholder size,
drop the page object and any selection, and install a gray placeholder pixmap
of exactly the placeholder size (`QPixmap(width, height)`); the widget is
fixed to that size (`setFixedSize`). -/
def setPlaceholder (w : PDFPageWidget) (pageNum width height : Int) : PDFPageWidget :=
  { w with
    pageNumber := pageNum
    isRendered := false
    placeholderW := width
    placeholderH := height
    pageLoaded := false
    selectionStart := none
    selectionEnd := none
    selectedText := ""
    pixmap := some (width, height) }

/-- `PDFPageWidget.unload_page`: only acts when the page is rendered and the
stored placeholder width is positive (`self._is_rendered and
self._placeholder_size[0] > 0`); then drops the page object, reverts to the
placeholder pixmap and clears the selection.  Otherwise it does nothing. -/
def unloadPage (w : PDFPageWidget) : PDFPageWidget :=
  if w.isRendered ∧ 0 < w.placeholderW then
    { w with
      pageLoaded := false
      isRendered := false
      selectionStart := none
      selectionEnd := none
      selectedText := ""
      pixmap := some (w.placeholderW, w.placeholderH) }
  else w

/-- `PDFPageWidget.set_page`: attach a page object, record the zoom, mark the
widget rendered, clear any selection, and (via `_render_page`) install the
raster pixmap whose dimensions `pixW × pixH` come from the provider. -/
def setPage (w : PDFPageWidget) (zoom : ℚ) (pixW pixH : Int) : PDFPageWidget :=
  { w with
    pageLoaded := true
    zoom := zoom
    isRendered := true
    selectionStart := none
    selectionEnd := none
    selectedText := ""
    pixmap := some (pixW, pixH) }

/-- Dimensions of the raster the page-content provider returns for a page of
intrinsic size `pageSize` at `zoom` (the source renders with
`fitz.Matrix(zoom * 2, zoom * 2)`); a model of the provider's pixel
dimensions, not used by any theorem's arithmetic. -/
def pixmapDims (pageSize : ℚ × ℚ) (zoom : ℚ) : Int × Int :=
  (pyInt (pageSize.1 * (zoom * 2)), pyInt (pageSize.2 * (zoom * 2)))

/-- `PDFPageWidget.mousePressEvent`: on a left-button press the widget starts
selecting; if a pixmap is present, the press point is adjusted for the
label's centering offset (`(self.width() - pixmap.width()) // 2`, Python
floor division) and stored as both selection start and end.  The widget's
width/height are its fixed placeholder size. -/
def mousePressEvent (w : PDFPageWidget) (leftButton : Bool) (pos : Int × Int) :
    PDFPageWidget :=
  if leftButton then
    let w1 := { w with isSelecting := true }
    match w1.pixmap with
    | some pm =>
        let offsetX := Int.fdiv (w1.placeholderW - pm.1) 2
        let offsetY := Int.fdiv (w1.placeholderH - pm.2) 2
        let p : Int × Int := (pos.1 - offsetX, pos.2 - offsetY)
        { w1 with selectionStart := some p, selectionEnd := some p }
    | none => w1
  else w

/-- A document-space rectangle (`fitz.Rect(x0, y0, x1, y1)`). -/
structure Rect where
  x0 : ℚ
  y0 : ℚ
  x1 : ℚ
  y1 : ℚ
deriving DecidableEq, Repr

/-- `PDFPageWidget._extract_selected_text`: returns the document-space clip
rectangle handed to the provider's text extraction, or `none` when the page
object or either selection endpoint is absent (silent no-op).  Screen
coordinates are divided by `scale = zoom * 2` after min/max normalization. -/
def extractSelectedText (w : PDFPageWidget) : Option Rect :=
  match w.pageLoaded, w.selectionStart, w.selectionEnd with
  | true, some s, some e =>
      let scale := w.zoom * 2
      some { x0 := ((min s.1 e.1 : Int) : ℚ) / scale
             y0 := ((min s.2 e.2 : Int) : ℚ) / scale
             x1 := ((max s.1 e.1 : Int) : ℚ) / scale
             y1 := ((max s.2 e.2 : Int) : ℚ) / scale }
  | _, _, _ => none

/-- `PDFPageWidget.capture_selection_screenshot`: returns the document-space
clip rectangle rendered by the provider for the screenshot, or `none` when
the page object or either selection endpoint is absent.  The conversion is
the same `screen / (zoom * 2)` computation as text extraction. -/
def captureSelectionScreenshot (w : PDFPageWidget) : Option Rect :=
  match w.pageLoaded, w.selectionStart, w.selectionEnd with
  | true, some s, some e =>
      let scale := w.zoom * 2
      some { x0 := ((min s.1 e.1 : Int) : ℚ) / scale
             y0 := ((min s.2 e.2 : Int) : ℚ) / scale
             x1 := ((max s.1 e.1 : Int) : ℚ) / scale
             y1 := ((max s.2 e.2 : Int) : ℚ) / scale }
  | _, _, _ => none

/-- `PDFPageContainer.get_page_widget`: the widget at `pageNum`, or `none`
when the index is out of range (`0 <= page_num < len(self._page_widgets)`). -/
def getPageWidget (widgets : List PDFPageWidget) (pageNum : Int) :
    Option PDFPageWidget :=
  if 0 ≤ pageNum ∧ pageNum < (widgets.length : Int) then
    widgets.get? pageNum.toNat
  else none

/-! ## Page container layout and the viewport sweep -/

/-- `QVBoxLayout` spacing between page widgets (`setSpacing(20)`). -/
def layoutSpacing : Int := 20

/-- `QVBoxLayout` top content margin (`setContentsMargins(10, 10, 10, 10)`). -/
def layoutTopMargin : Int := 10

/-- `self._doc[page_num].rect`: the page's intrinsic size.  Out-of-range
indices would raise in the source; modelled as a degenerate `(0, 0)` rect,
never exercised by a theorem whose widgets are well-indexed. -/
def pageRectAt (pages : List (ℚ × ℚ)) (n : Int) : ℚ × ℚ :=
  if 0 ≤ n then pages.getD n.toNat (0, 0) else (0, 0)

/-- The in-viewport test of `PDFViewer._update_visible_pages` for a widget
whose top edge sits at `y`:
`widget_bottom >= viewport_top - buffer_pixels and
 widget_top <= viewport_bottom + buffer_pixels`
with `buffer_pixels = viewport_height` (one viewport height of buffer) and
`viewport_bottom = viewport_top + viewport_height`. -/
def pageInView (viewportTop viewportHeight y : Int) (w : PDFPageWidget) : Bool :=
  (viewportTop - viewportHeight ≤ y + w.placeholderH) &&
    (y ≤ (viewportTop + viewportHeight) + viewportHeight)

/-- One loop iteration of `_update_visible_pages` for the widget at vertical
position `y`: render it if it is in view and not rendered, unload it if it is
out of view and rendered, and leave it alone otherwise. -/
def sweepStep (pages : List (ℚ × ℚ)) (zoom : ℚ) (viewportTop viewportHeight y : Int)
    (w : PDFPageWidget) : PDFPageWidget :=
  if pageInView viewportTop viewportHeight y w && !w.isRendered then
    let pix := pixmapDims (pageRectAt pages w.pageNumber) zoom
    setPage w zoom pix.1 pix.2
  else if !(pageInView viewportTop viewportHeight y w) && w.isRendered then
    unloadPage w
  else w

/-- The render calls to the page-content provider made by one loop iteration
of `_update_visible_pages` (`self._doc[page_num]` followed by
`widget.set_page`): the page number when the render branch is taken. -/
def sweepRenders (viewportTop viewportHeight y : Int) (w : PDFPageWidget) : List Int :=
  if pageInView viewportTop viewportHeight y w && !w.isRendered then [w.pageNumber]
  else []

/-- The unloads performed by one loop iteration of `_update_visible_pages`:
the page number when the unload branch is taken and `unload_page` actually
drops the raster (its internal guard `_is_rendered and placeholder width > 0`
holds). -/
def sweepUnloads (viewportTop viewportHeight y : Int) (w : PDFPageWidget) : List Int :=
  if !(pageInView viewportTop viewportHeight y w) && w.isRendered
      && decide (0 < w.placeholderW) then
    [w.pageNumber]
  else []

/-- The widget loop of `PDFViewer._update_visible_pages`, processing widgets
in page order.  `y` is the running top position of the current widget under
the container's vertical layout; successive widgets are separated by their
fixed heights plus `layoutSpacing`.  Returns the updated widgets together
with the lists of provider render calls and of performed unloads. -/
def sweepFrom (pages : List (ℚ × ℚ)) (zoom : ℚ) (viewportTop viewportHeight : Int) :
    Int → List PDFPageWidget → List PDFPageWidget × (List Int × List Int)
  | _, [] => ([], ([], []))
  | y, w :: rest =>
    let tail := sweepFrom pages zoom viewportTop viewportHeight
      (y + w.placeholderH + layoutSpacing) rest
    (sweepStep pages zoom viewportTop viewportHeight y w :: tail.1,
      (sweepRenders viewportTop viewportHeight y w ++ tail.2.1,
        sweepUnloads viewportTop viewportHeight y w ++ tail.2.2))

/-- Top edge of the `i`-th widget when the first listed widget's top edge is
at `y` (cumulative fixed heights plus `layoutSpacing`). -/
def widgetTopFrom (y : Int) : List PDFPageWidget → Nat → Int
  | [], _ => y
  | _ :: _, 0 => y
  | w :: rest, i + 1 => widgetTopFrom (y + w.placeholderH + layoutSpacing) rest i

/-- Whether the `i`-th widget's vertical span intersects the buffered
viewport range `[viewportTop - buffer, viewportTop + viewportHeight + buffer]`
with `buffer = viewportHeight`, under the container's layout (top margin
`layoutTopMargin`, spacing `layoutSpacing`). -/
def inViewAt (ws : List PDFPageWidget) (viewportTop viewportHeight : Int) (i : Nat) : Bool :=
  pageInView viewportTop viewportHeight (widgetTopFrom layoutTopMargin ws i) (ws.getD i {})

/-! ## Viewer state and operations -/

/-- The open document: its pages' intrinsic sizes, and whether `close()` has
been called on the handle. -/
structure Document where
  pages : List (ℚ × ℚ)
  isClosed : Bool := false
deriving DecidableEq, Repr

/-- Qt pinch-gesture lifecycle values seen by `_pinch_triggered`
(`GestureStarted` / `GestureUpdated` / `GestureFinished`). -/
inductive GestureSt
  | started
  | updated
  | finished
deriving DecidableEq, Repr

/-- Viewer state, embedding `PDFViewer.__init__` fields: `_doc`,
`_current_page`, `_zoom`, `_pdf_path`, `_gesture_base_zoom`, `_in_gesture`,
`_pending_rerender`, the single-shot `_rerender_timer` (its active flag and
absolute expiry time in ms), and the container's page widgets.
`rerenderCount` instruments the number of `_rerender_all_pages` calls for the
throttling property. -/
structure PDFViewer where
  doc : Option Document := none
  currentPage : Int := 0
  zoom : ℚ := 1
  pdfPath : String := ""
  gestureBaseZoom : ℚ := 1
  inGesture : Bool := false
  pendingRerender : Bool := false
  timerActive : Bool := false
  timerDeadline : ℚ := 0
  rerenderCount : Nat := 0
  widgets : List PDFPageWidget := []
deriving DecidableEq, Repr

/-- `PDFViewer._update_visible_pages`: returns early when no document is
open; otherwise runs the widget sweep at the current zoom over the
scroll-area geometry (`viewportTop` = scroll bar value, `viewportHeight` =
viewport height). -/
def updateVisiblePages (v : PDFViewer) (viewportTop viewportHeight : Int) : PDFViewer :=
  match v.doc with
  | none => v
  | some d =>
    { v with
      widgets :=
        (sweepFrom d.pages v.zoom viewportTop viewportHeight layoutTopMargin v.widgets).1 }

/-- The placeholder-reset loop of `PDFViewer._rerender_all_pages`: every
widget is reset to a placeholder whose size is
`int(rect.width * zoom * 2), int(rect.height * zoom * 2)` for its page's
intrinsic rect at the viewer's current zoom. -/
def placeholderReset (pages : List (ℚ × ℚ)) (zoom : ℚ) (ws : List PDFPageWidget) :
    List PDFPageWidget :=
  ws.map fun w =>
    let r := pageRectAt pages w.pageNumber
    setPlaceholder w w.pageNumber (pyInt (r.1 * zoom * 2)) (pyInt (r.2 * zoom * 2))

/-- `PDFViewer._rerender_all_pages`: counts as one re-render call; returns
early when no document is open; otherwise resets every widget to a
placeholder at the current zoom (dimension invalidation) and only then
re-renders the visible pages via `_update_visible_pages`. -/
def rerenderAllPages (v : PDFViewer) (viewportTop viewportHeight : Int) : PDFViewer :=
  let v := { v with rerenderCount := v.rerenderCount + 1 }
  match v.doc with
  | none => v
  | some d =>
    updateVisiblePages
      { v with widgets := placeholderReset d.pages v.zoom v.widgets }
      viewportTop viewportHeight

/-- `PDFViewer._throttled_rerender` (the timer's timeout handler): re-renders
only when a re-render is pending, consuming the pending flag. -/
def throttledRerender (v : PDFViewer) (viewportTop viewportHeight : Int) : PDFViewer :=
  if v.pendingRerender then
    rerenderAllPages { v with pendingRerender := false } viewportTop viewportHeight
  else v

/-- `PDFViewer._request_rerender`: immediate (or outside a gesture) requests
stop the timer and re-render now; during a gesture the request only marks a
re-render pending and starts the 150 ms single-shot timer if it is not
already running (`now` is the current time in ms). -/
def requestRerender (v : PDFViewer) (immediate : Bool) (now : ℚ)
    (viewportTop viewportHeight : Int) : PDFViewer :=
  if immediate || !v.inGesture then
    rerenderAllPages { v with timerActive := false } viewportTop viewportHeight
  else if v.timerActive then
    { v with pendingRerender := true }
  else
    { v with pendingRerender := true, timerActive := true, timerDeadline := now + 150 }

/-- Single-shot timer semantics: when the timer is active and its deadline
has been reached at time `now`, it fires `_throttled_rerender` (and is no
longer active). -/
def fireTimerIfDue (v : PDFViewer) (now : ℚ) (viewportTop viewportHeight : Int) : PDFViewer :=
  if v.timerActive ∧ v.timerDeadline ≤ now then
    throttledRerender { v with timerActive := false } viewportTop viewportHeight
  else v

/-- `PDFViewer.zoom_in`: only acts when `self._zoom < 3.0`; then adds `0.25`
(no clamping) and re-renders all pages. -/
def zoomIn (v : PDFViewer) (viewportTop viewportHeight : Int) : PDFViewer :=
  if v.zoom < 3 then
    rerenderAllPages { v with zoom := v.zoom + 1/4 } viewportTop viewportHeight
  else v

/-- `PDFViewer.zoom_out`: only acts when `self._zoom > 0.25`; then subtracts
`0.25` (no clamping) and re-renders all pages. -/
def zoomOut (v : PDFViewer) (viewportTop viewportHeight : Int) : PDFViewer :=
  if 1/4 < v.zoom then
    rerenderAllPages { v with zoom := v.zoom - 1/4 } viewportTop viewportHeight
  else v

/-- First phase of `PDFViewer._pinch_triggered`: on `GestureStarted`
snapshot `_gesture_base_zoom` and enter the gesture. -/
def pinchStart (v : PDFViewer) (st : GestureSt) : PDFViewer :=
  if st = GestureSt.started then
    { v with gestureBaseZoom := v.zoom, inGesture := true }
  else v

/-- Second phase of `PDFViewer._pinch_triggered`: when the scale factor
changed, compute `new_zoom = gesture_base_zoom * scale` and adopt it only if
it lies within `[0.25, 3.0]` (out-of-bounds updates are dropped), requesting
a throttled re-render. -/
def pinchScale (v : PDFViewer) (scaleChanged : Bool) (scaleFactor : ℚ) (now : ℚ)
    (viewportTop viewportHeight : Int) : PDFViewer :=
  if scaleChanged then
    if 1/4 ≤ v.gestureBaseZoom * scaleFactor ∧ v.gestureBaseZoom * scaleFactor ≤ 3 then
      requestRerender { v with zoom := v.gestureBaseZoom * scaleFactor } false now
        viewportTop viewportHeight
    else v
  else v

/-- Third phase of `PDFViewer._pinch_triggered`: on `GestureFinished` leave
the gesture and request an immediate re-render. -/
def pinchFinish (v : PDFViewer) (st : GestureSt) (now : ℚ)
    (viewportTop viewportHeight : Int) : PDFViewer :=
  if st = GestureSt.finished then
    requestRerender { v with inGesture := false } true now viewportTop viewportHeight
  else v

/-- `PDFViewer._pinch_triggered`: the three phases in the handler's order. -/
def pinchTriggered (v : PDFViewer) (st : GestureSt) (scaleChanged : Bool)
    (scaleFactor : ℚ) (now : ℚ) (viewportTop viewportHeight : Int) : PDFViewer :=
  pinchFinish (pinchScale (pinchStart v st) scaleChanged scaleFactor now
    viewportTop viewportHeight) st now viewportTop viewportHeight

/-- `PDFViewer._native_gesture_event`, `ZoomNativeGesture` case:
`new_zoom = self._zoom * (1.0 + delta)`, adopted only when within
`[0.25, 3.0]`, requesting a throttled re-render. -/
def nativeGestureZoom (v : PDFViewer) (delta : ℚ) (now : ℚ)
    (viewportTop viewportHeight : Int) : PDFViewer :=
  if 1/4 ≤ v.zoom * (1 + delta) ∧ v.zoom * (1 + delta) ≤ 3 then
    requestRerender { v with zoom := v.zoom * (1 + delta) } false now
      viewportTop viewportHeight
  else v

/-- `PDFViewer._native_gesture_event`, `BeginNativeGesture` case. -/
def nativeGestureBegin (v : PDFViewer) : PDFViewer :=
  { v with gestureBaseZoom := v.zoom, inGesture := true }

/-- `PDFViewer._native_gesture_event`, `EndNativeGesture` case. -/
def nativeGestureEnd (v : PDFViewer) (now : ℚ) (viewportTop viewportHeight : Int) :
    PDFViewer :=
  requestRerender { v with inGesture := false } true now viewportTop viewportHeight

/-- The placeholder-creation loop of `PDFViewer.load_pdf`
(`for page_num in range(page_count)`): a fresh widget per page, set up as a
placeholder of size `int(rect.width * zoom * 2), int(rect.height * zoom * 2)`. -/
def buildPlaceholders (zoom : ℚ) : Int → List (ℚ × ℚ) → List PDFPageWidget
  | _, [] => []
  | n, p :: rest =>
    setPlaceholder {} n (pyInt (p.1 * zoom * 2)) (pyInt (p.2 * zoom * 2)) ::
      buildPlaceholders zoom (n + 1) rest

/-- `PDFViewer.load_pdf`: inside the `try` block the prior document (if any)
is closed and all page widgets are cleared *before* `fitz.open` runs;
`openResult` is the provider's answer (`none` models `fitz.open` raising, in
which case the `except` branch merely emits a status message and returns
`False`).  On success the zoom is reset to `1.0`, the current page to `0`,
placeholder widgets are created for every page, and the initially visible
pages are rendered. -/
def loadPdf (v : PDFViewer) (openResult : Option (List (ℚ × ℚ))) (path : String)
    (viewportTop viewportHeight : Int) : PDFViewer × Bool :=
  let v := { v with doc := v.doc.map (fun (d : Document) => { d with isClosed := true }) }
  let v := { v with widgets := [] }
  match openResult with
  | none => (v, false)
  | some pages =>
    let v := { v with
      doc := some { pages := pages }
      pdfPath := path
      currentPage := 0
      zoom := 1 }
    let v := { v with widgets := buildPlaceholders v.zoom 0 pages }
    (updateVisiblePages v viewportTop viewportHeight, true)

/-- The widget's `display_size`: its fixed on-screen size in pixels (the
placeholder size set by `set_placeholder` / `setFixedSize`). -/
def displaySize (w : PDFPageWidget) : Int × Int :=
  (w.placeholderW, w.placeholderH)

/-! ## Concrete states used by counterexamples and evaluations -/

/-- Viewer obtained by loading a one-page document whose page is 0.4 pt wide
(placeholder width truncates to 0) with the page initially in view, so it
gets rendered. -/
def c1LoadedViewer : PDFViewer :=
  (loadPdf {} (some [((2 : ℚ)/5, 50)]) "tiny.pdf" 0 500).1

/-- The same viewer after a viewport sweep whose buffered range lies far
below the page. -/
def c1SweptViewer : PDFViewer :=
  updateVisiblePages c1LoadedViewer 2000 10

/-- Gesture sequence reaching zoom 2.9: a pinch starts at zoom 1.0 and
updates with scale factor 2.9 (within bounds, so adopted), then finishes. -/
def c2Gestured : PDFViewer :=
  pinchTriggered {} GestureSt.started true ((29 : ℚ)/10) 0 0 100

/-- The viewer after the pinch gesture has finished, idle at zoom 2.9. -/
def c2Idle : PDFViewer :=
  pinchTriggered c2Gestured GestureSt.finished false 1 10 0 100

/-- Prior state for the C3 check: a successfully loaded three-page document
whose pages are all rendered (they fit in the initial viewport). -/
def c3PriorViewer : PDFViewer :=
  (loadPdf {} (some [((100 : ℚ), 50), (100, 50), (100, 50)]) "prior.pdf" 0 1000).1

/-- Timed driver for a burst of pinch `gesture_update` events: before each
event, timestamped `t`, the single-shot throttle timer fires if its deadline
has passed; then the pinch handler runs with `GestureUpdated` and a changed
scale factor (second component of the pair). -/
def runGestureUpdates (viewportTop viewportHeight : Int) :
    PDFViewer → List (ℚ × ℚ) → PDFViewer
  | v, [] => v
  | v, u :: rest =>
      runGestureUpdates viewportTop viewportHeight
        (pinchTriggered (fireTimerIfDue v u.1 viewportTop viewportHeight)
          GestureSt.updated true u.2 u.1 viewportTop viewportHeight) rest

/-- Ten equally spaced gesture updates (scale factor 1) inside a 50 ms
burst. -/
def c5Burst : List (ℚ × ℚ) :=
  [(0, 1), (5, 1), (10, 1), (15, 1), (20, 1), (25, 1), (30, 1), (35, 1),
    (40, 1), (45, 1)]

/-- A one-page (100 × 50 pt) document. -/
def c6Doc : Document :=
  { pages := [((100 : ℚ), 50)] }

/-- A single page widget, rendered at zoom 1 with display size 200 × 100. -/
def c6Widgets : List PDFPageWidget :=
  [setPage (setPlaceholder {} 0 200 100) 1 200 100]

/-- Viewer whose zoom was just changed to 3/2 with the entry still rendered
at zoom 1, about to run `_rerender_all_pages`. -/
def c6Viewer : PDFViewer :=
  { doc := some c6Doc, zoom := 3/2, widgets := c6Widgets }

/-- A widget with an attached page at zoom 1/2 and an active drag selection
from (10, 20) to (30, 5). -/
def c7Widget : PDFPageWidget :=
  { pageLoaded := true, zoom := 1/2, selectionStart := some (10, 20),
    selectionEnd := some (30, 5) }

/-! ## Structural lemmas about the sweep -/

theorem pyInt_truncates_toward_zero :
    pyInt (7 / 2 : ℚ) = 3 ∧ pyInt (-7 / 2 : ℚ) = -3
      ∧ pyInt ((2 / 5 : ℚ) * 1 * 2) = 0 := by
  with_unfolding_all decide

theorem unloadPage_displaySize (w : PDFPageWidget) :
    displaySize (unloadPage w) = displaySize w := by
  unfold unloadPage
  split <;> rfl

theorem sweepStep_displaySize (pages : List (ℚ × ℚ)) (z : ℚ) (t vh y : Int)
    (w : PDFPageWidget) : displaySize (sweepStep pages z t vh y w) = displaySize w := by
  unfold sweepStep
  split
  · rfl
  · split
    · exact unloadPage_displaySize w
    · rfl

theorem sweepStep_placeholderH (pages : List (ℚ × ℚ)) (z : ℚ) (t vh y : Int)
    (w : PDFPageWidget) : (sweepStep pages z t vh y w).placeholderH = w.placeholderH :=
  congrArg Prod.snd (sweepStep_displaySize pages z t vh y w)

theorem sweepStep_pageInView (pages : List (ℚ × ℚ)) (z : ℚ) (t vh y y' : Int)
    (w : PDFPageWidget) :
    pageInView t vh y (sweepStep pages z t vh y' w) = pageInView t vh y w := by
  unfold pageInView
  rw [sweepStep_placeholderH]

theorem sweepFrom_length (pages : List (ℚ × ℚ)) (z : ℚ) (t vh : Int)
    (ws : List PDFPageWidget) : ∀ y : Int,
    ((sweepFrom pages z t vh y ws).1).length = ws.length := by
  induction ws with
  | nil => intro y; rfl
  | cons w rest ih => intro y; simp [sweepFrom, ih]

theorem sweepFrom_displaySizes (pages : List (ℚ × ℚ)) (z : ℚ) (t vh : Int)
    (ws : List PDFPageWidget) : ∀ y : Int,
    ((sweepFrom pages z t vh y ws).1).map displaySize = ws.map displaySize := by
  induction ws with
  | nil => intro y; rfl
  | cons w rest ih =>
    intro y
    simp [sweepFrom, ih, sweepStep_displaySize]

theorem sweepFrom_getD (pages : List (ℚ × ℚ)) (z : ℚ) (t vh : Int)
    (ws : List PDFPageWidget) : ∀ (y : Int) (i : Nat), i < ws.length →
    ((sweepFrom pages z t vh y ws).1).getD i {} =
      sweepStep pages z t vh (widgetTopFrom y ws i) (ws.getD i {}) := by
  induction ws with
  | nil => intro y i hi; exact absurd hi (by simp)
  | cons w rest ih =>
    intro y i hi
    cases i with
    | zero => rfl
    | succ i =>
      have hi' : i < rest.length := by simpa using hi
      simpa [sweepFrom, widgetTopFrom] using
        ih (y + w.placeholderH + layoutSpacing) i hi'

theorem unloadPage_of_nonpos (w : PDFPageWidget) (h : ¬ 0 < w.placeholderW) :
    unloadPage w = w := by
  unfold unloadPage
  rw [if_neg]
  intro hc
  exact h hc.2

theorem unloadPage_isRendered (w : PDFPageWidget) (hr : w.isRendered = true)
    (h : 0 < w.placeholderW) : (unloadPage w).isRendered = false := by
  unfold unloadPage
  rw [if_pos ⟨hr, h⟩]

theorem sweepStep_isRendered (pages : List (ℚ × ℚ)) (z : ℚ) (t vh y : Int)
    (w : PDFPageWidget) (hw : w.isRendered = true → 0 < w.placeholderW) :
    (sweepStep pages z t vh y w).isRendered = pageInView t vh y w := by
  cases hin : pageInView t vh y w with
  | false =>
    cases hr : w.isRendered with
    | false => simp [sweepStep, hin, hr]
    | true => simp [sweepStep, hin, hr, unloadPage_isRendered w hr (hw hr)]
  | true =>
    cases hr : w.isRendered with
    | false => simp [sweepStep, hin, hr, setPage]
    | true => simp [sweepStep, hin, hr]

theorem sweepStep_idem (pages : List (ℚ × ℚ)) (z : ℚ) (t vh y : Int)
    (w : PDFPageWidget) :
    sweepStep pages z t vh y (sweepStep pages z t vh y w) = sweepStep pages z t vh y w := by
  have hpv := sweepStep_pageInView pages z t vh y y w
  cases hin : pageInView t vh y w with
  | false =>
    cases hr : w.isRendered with
    | false =>
      have h1 : sweepStep pages z t vh y w = w := by simp [sweepStep, hin, hr]
      rw [h1]
      simp [sweepStep, hin, hr]
    | true =>
      by_cases hpw : 0 < w.placeholderW
      · have h1 : sweepStep pages z t vh y w = unloadPage w := by
          simp [sweepStep, hin, hr]
        rw [h1] at hpv ⊢
        simp [sweepStep, hpv, hin, unloadPage_isRendered w hr hpw]
      · have h1 : sweepStep pages z t vh y w = w := by
          simp [sweepStep, hin, hr, unloadPage_of_nonpos w hpw]
        rw [h1]
        simp [sweepStep, hin, hr, unloadPage_of_nonpos w hpw]
  | true =>
    cases hr : w.isRendered with
    | false =>
      have h1 : (sweepStep pages z t vh y w).isRendered = true := by
        simp [sweepStep, hin, hr, setPage]
      rw [sweepStep]
      rw [hpv, hin, h1]
      simp
    | true =>
      have h1 : sweepStep pages z t vh y w = w := by simp [sweepStep, hin, hr]
      rw [h1]
      exact h1

theorem sweepRenders_after_step (pages : List (ℚ × ℚ)) (z : ℚ) (t vh y : Int)
    (w : PDFPageWidget) :
    sweepRenders t vh y (sweepStep pages z t vh y w) = [] := by
  have hpv := sweepStep_pageInView pages z t vh y y w
  cases hin : pageInView t vh y w with
  | false =>
    unfold sweepRenders
    rw [hpv, hin]
    simp
  | true =>
    cases hr : w.isRendered with
    | false =>
      have h1 : (sweepStep pages z t vh y w).isRendered = true := by
        simp [sweepStep, hin, hr, setPage]
      unfold sweepRenders
      rw [hpv, hin, h1]
      simp
    | true =>
      have h1 : sweepStep pages z t vh y w = w := by simp [sweepStep, hin, hr]
      unfold sweepRenders
      rw [h1, hin, hr]
      simp

theorem sweepUnloads_after_step (pages : List (ℚ × ℚ)) (z : ℚ) (t vh y : Int)
    (w : PDFPageWidget) :
    sweepUnloads t vh y (sweepStep pages z t vh y w) = [] := by
  have hpv := sweepStep_pageInView pages z t vh y y w
  cases hin : pageInView t vh y w with
  | true =>
    unfold sweepUnloads
    rw [hpv, hin]
    simp
  | false =>
    cases hr : w.isRendered with
    | false =>
      have h1 : sweepStep pages z t vh y w = w := by simp [sweepStep, hin, hr]
      unfold sweepUnloads
      rw [h1, hin, hr]
      simp
    | true =>
      by_cases hpw : 0 < w.placeholderW
      · have h1 : sweepStep pages z t vh y w = unloadPage w := by
          simp [sweepStep, hin, hr]
        have h2 : (unloadPage w).isRendered = false := unloadPage_isRendered w hr hpw
        have h3 : pageInView t vh y (unloadPage w) = false := by
          rw [← h1, hpv, hin]
        unfold sweepUnloads
        rw [h1, h3, h2]
        simp
      · have h1 : sweepStep pages z t vh y w = w := by
          simp [sweepStep, hin, hr, unloadPage_of_nonpos w hpw]
        unfold sweepUnloads
        rw [h1, hin, hr]
        simp [hpw]

theorem sweepFrom_idem (pages : List (ℚ × ℚ)) (z : ℚ) (t vh : Int)
    (ws : List PDFPageWidget) : ∀ y : Int,
    sweepFrom pages z t vh y ((sweepFrom pages z t vh y ws).1)
      = ((sweepFrom pages z t vh y ws).1, ([], [])) := by
  induction ws with
  | nil => intro y; rfl
  | cons w rest ih =>
    intro y
    have hH := sweepStep_placeholderH pages z t vh y w
    have tailEq := ih (y + w.placeholderH + layoutSpacing)
    simp only [sweepFrom]
    rw [hH, tailEq]
    simp [sweepStep_idem, sweepRenders_after_step, sweepUnloads_after_step]

theorem getD_mem_of_lt (ws : List PDFPageWidget) (i : Nat) (hi : i < ws.length) :
    ws.getD i {} ∈ ws := by
  have h : ws.getD i {} = ws.get ⟨i, hi⟩ := by
    rw [List.getD_eq_getElem?_getD, List.getElem?_eq_getElem hi]
    rfl
  rw [h]
  exact List.get_mem ws i hi

/-! ## Claims -/

/-- C1 counterexample: after the viewport sweep for scroll offset 2000 and
viewport height 10, entry 0 does not intersect the buffered range, yet it is
still `Rendered`: `unload_page` refuses to unload a widget whose stored
placeholder width is 0 (here the page is 0.4 pt wide, so
`int(0.4 * 1.0 * 2) = 0`), so the claimed invariant fails. -/
theorem sweep_rendered_invariant_counterexample :
    (c1SweptViewer.widgets.getD 0 {}).isRendered = true
      ∧ inViewAt c1SweptViewer.widgets 2000 10 0 = false := by
  with_unfolding_all decide

/-- C1 (amended): after a viewport sweep, an entry is `Rendered` exactly when
its vertical span intersects
`[scroll_offset - buffer, scroll_offset + viewport_height + buffer]` with
`buffer` one viewport height — provided every `Rendered` entry entering the
sweep has positive placeholder width (otherwise `unload_page` is a no-op and
the entry can stay `Rendered` outside the range). -/
theorem sweep_rendered_iff_in_buffered_range (pages : List (ℚ × ℚ)) (z : ℚ)
    (t vh : Int) (ws : List PDFPageWidget)
    (hw : ∀ w ∈ ws, w.isRendered = true → 0 < w.placeholderW)
    (i : Nat) (hi : i < ws.length) :
    (((sweepFrom pages z t vh layoutTopMargin ws).1).getD i {}).isRendered
      = inViewAt ws t vh i := by
  rw [sweepFrom_getD pages z t vh ws layoutTopMargin i hi]
  exact sweepStep_isRendered pages z t vh (widgetTopFrom layoutTopMargin ws i)
    (ws.getD i {}) (hw (ws.getD i {}) (getD_mem_of_lt ws i hi))

/-- C1 witness: a concrete one-widget sweep satisfying the amended claim's
hypotheses. -/
theorem sweep_rendered_iff_in_buffered_range_witness :
    (((sweepFrom [((50 : ℚ), 100)] 1 0 300 layoutTopMargin
        [setPlaceholder {} 0 100 200]).1).getD 0 {}).isRendered
      = inViewAt [setPlaceholder {} 0 100 200] 0 300 0 :=
  sweep_rendered_iff_in_buffered_range [((50 : ℚ), 100)] 1 0 300
    [setPlaceholder {} 0 100 200] (by with_unfolding_all decide) 0
    (by decide)

/-- C4: the viewport sweep is idempotent.  Running `_update_visible_pages`'s
widget loop a second time with the same `ViewportState` issues no render
calls to the page-content provider, performs no unloads, and leaves every
entry unchanged. -/
theorem sweep_idempotent (pages : List (ℚ × ℚ)) (z : ℚ) (t vh : Int)
    (ws : List PDFPageWidget) :
    sweepFrom pages z t vh layoutTopMargin ((sweepFrom pages z t vh layoutTopMargin ws).1)
      = ((sweepFrom pages z t vh layoutTopMargin ws).1, ([], [])) :=
  sweepFrom_idem pages z t vh ws layoutTopMargin

theorem updateVisiblePages_zoom (v : PDFViewer) (t vh : Int) :
    (updateVisiblePages v t vh).zoom = v.zoom := by
  cases hd : v.doc <;> simp [updateVisiblePages, hd]

theorem rerenderAllPages_zoom (v : PDFViewer) (t vh : Int) :
    (rerenderAllPages v t vh).zoom = v.zoom := by
  cases hd : v.doc <;> simp [rerenderAllPages, hd, updateVisiblePages_zoom]

theorem requestRerender_zoom (v : PDFViewer) (im : Bool) (now : ℚ) (t vh : Int) :
    (requestRerender v im now t vh).zoom = v.zoom := by
  simp only [requestRerender]
  split
  · rw [rerenderAllPages_zoom]
  · split <;> rfl

theorem pinchStart_zoom (v : PDFViewer) (st : GestureSt) :
    (pinchStart v st).zoom = v.zoom := by
  unfold pinchStart
  split <;> rfl

theorem pinchFinish_zoom (v : PDFViewer) (st : GestureSt) (now : ℚ) (t vh : Int) :
    (pinchFinish v st now t vh).zoom = v.zoom := by
  unfold pinchFinish
  split
  · rw [requestRerender_zoom]
  · rfl

theorem pinchScale_zoom_bounds (v : PDFViewer) (sc : Bool) (s now : ℚ) (t vh : Int)
    (h1 : 1/4 ≤ v.zoom) (h2 : v.zoom ≤ 3) :
    1/4 ≤ (pinchScale v sc s now t vh).zoom ∧ (pinchScale v sc s now t vh).zoom ≤ 3 := by
  simp only [pinchScale]
  split_ifs with hsc hb
  · rw [requestRerender_zoom]
    exact hb
  · exact ⟨h1, h2⟩
  · exact ⟨h1, h2⟩

/-- C2 counterexample: from the reachable idle state at zoom 2.9 (within
`[0.25, 3.0]`), the discrete zoom-in step yields 3.15, outside the claimed
bounds: `zoom_in` only checks `self._zoom < 3.0` and then adds `0.25`
without clamping. -/
theorem discrete_zoom_step_exceeds_bounds :
    c2Idle.zoom = 29/10 ∧ (1/4 ≤ c2Idle.zoom ∧ c2Idle.zoom ≤ 3)
      ∧ c2Idle.inGesture = false
      ∧ (zoomIn c2Idle 0 100).zoom = 63/20
      ∧ ¬ ((zoomIn c2Idle 0 100).zoom ≤ 3) := by
  with_unfolding_all decide

/-- C2 (amended): gesture updates (pinch or native) always keep the zoom in
`[0.25, 3.0]` — an out-of-bounds result is dropped; the discrete ±0.25 step
does not clamp, but it keeps the zoom within bounds whenever the current
zoom is an integer multiple of 0.25 (as it always is while only discrete
steps have been applied), and at a bound the step is a no-op that changes
nothing. -/
theorem zoom_operations_bounds (v : PDFViewer) (t vh : Int) (now s delta : ℚ)
    (st : GestureSt) (sc : Bool)
    (h1 : 1/4 ≤ v.zoom) (h2 : v.zoom ≤ 3) :
    (1/4 ≤ (pinchTriggered v st sc s now t vh).zoom
      ∧ (pinchTriggered v st sc s now t vh).zoom ≤ 3)
    ∧ (1/4 ≤ (nativeGestureZoom v delta now t vh).zoom
      ∧ (nativeGestureZoom v delta now t vh).zoom ≤ 3)
    ∧ ((∃ k : ℤ, v.zoom = (k : ℚ) / 4) →
        (1/4 ≤ (zoomIn v t vh).zoom ∧ (zoomIn v t vh).zoom ≤ 3
          ∧ 1/4 ≤ (zoomOut v t vh).zoom ∧ (zoomOut v t vh).zoom ≤ 3))
    ∧ (v.zoom = 3 → zoomIn v t vh = v)
    ∧ (v.zoom = 1/4 → zoomOut v t vh = v) := by
  refine ⟨?_, ?_, ?_, ?_, ?_⟩
  · unfold pinchTriggered
    rw [pinchFinish_zoom]
    exact pinchScale_zoom_bounds _ sc s now t vh
      (by rw [pinchStart_zoom]; exact h1) (by rw [pinchStart_zoom]; exact h2)
  · simp only [nativeGestureZoom]
    split_ifs with hb
    · rw [requestRerender_zoom]
      exact hb
    · exact ⟨h1, h2⟩
  · rintro ⟨k, hk⟩
    unfold zoomIn zoomOut
    split_ifs with ha hb hb
    · have hk12 : k ≤ 11 := by
        have : (k : ℚ) < 12 := by rw [hk] at ha; linarith
        exact_mod_cast Int.lt_add_one_iff.mp (by exact_mod_cast this)
      have hz : ((k : ℚ) + 1) / 4 ≤ 3 := by
        have : (k : ℚ) + 1 ≤ 12 := by exact_mod_cast Int.add_one_le_iff.mpr (by omega)
        linarith
      have hk2 : 1 < k := by
        have : (1 : ℚ) < (k : ℚ) := by rw [hk] at hb; linarith
        exact_mod_cast this
      refine ⟨?_, ?_, ?_, ?_⟩ <;>
        simp only [rerenderAllPages_zoom] <;> rw [hk] <;> rw [hk] at h1 h2
      · linarith
      · linarith
      · have : (2 : ℚ) ≤ (k : ℚ) := by exact_mod_cast hk2
        linarith
      · linarith
    · have hk12 : k ≤ 11 := by
        have : (k : ℚ) < 12 := by rw [hk] at ha; linarith
        exact_mod_cast Int.lt_add_one_iff.mp (by exact_mod_cast this)
      refine ⟨?_, ?_, h1, h2⟩ <;> simp only [rerenderAllPages_zoom] <;> rw [hk] <;>
        rw [hk] at h1 h2
      · linarith
      · have : (k : ℚ) + 1 ≤ 12 := by exact_mod_cast Int.add_one_le_iff.mpr (by omega)
        linarith
    · refine ⟨h1, h2, ?_, ?_⟩ <;> simp only [rerenderAllPages_zoom] <;> rw [hk] <;>
        rw [hk] at h1 h2
      · have hk2 : 1 < k := by
          have : (1 : ℚ) < (k : ℚ) := by rw [hk] at hb; linarith
          exact_mod_cast this
        have : (2 : ℚ) ≤ (k : ℚ) := by exact_mod_cast hk2
        linarith
      · linarith
    · exact ⟨h1, h2, h1, h2⟩
  · intro h3
    unfold zoomIn
    rw [if_neg]
    rw [h3]
    exact lt_irrefl 3
  · intro h3
    unfold zoomOut
    rw [if_neg]
    rw [h3]
    exact lt_irrefl (1/4)

theorem updateVisiblePages_displaySizes (v : PDFViewer) (t vh : Int) :
    (updateVisiblePages v t vh).widgets.map displaySize = v.widgets.map displaySize := by
  cases hd : v.doc <;> simp [updateVisiblePages, hd, sweepFrom_displaySizes]

theorem buildPlaceholders_displaySizes (z : ℚ) : ∀ (n : Int) (pages : List (ℚ × ℚ)),
    (buildPlaceholders z n pages).map displaySize
      = pages.map (fun p => (pyInt (p.1 * z * 2), pyInt (p.2 * z * 2))) := by
  intro n pages
  induction pages generalizing n with
  | nil => rfl
  | cons p rest ih => simp [buildPlaceholders, setPlaceholder, displaySize, ih]

/-- C3: `load_pdf` closes the prior document and clears all page widgets
*before* attempting `fitz.open`, so a failed reload does not leave the prior
state untouched: afterwards the widget list is empty (the three previously
rendered entries are gone) and the retained document handle is closed.  This
contradicts the spec's explicit requirement and leaves the viewer about to
index a closed handle on the next scroll, so it is a code bug, not spec
error. -/
theorem load_failure_destroys_prior_state :
    c3PriorViewer.widgets.length = 3
    ∧ c3PriorViewer.widgets.all (fun w => w.isRendered) = true
    ∧ c3PriorViewer.doc.map Document.isClosed = some false
    ∧ (loadPdf c3PriorViewer none "missing.pdf" 0 1000).2 = false
    ∧ (loadPdf c3PriorViewer none "missing.pdf" 0 1000).1.widgets = []
    ∧ (loadPdf c3PriorViewer none "missing.pdf" 0 1000).1.doc.map Document.isClosed
        = some true := by
  with_unfolding_all decide

/-- C10: every successful `load_pdf` resets the zoom factor to `1.0`
regardless of the zoom in effect before the call, and the placeholder
entries it creates are sized `int(width * 1.0 * 2), int(height * 1.0 * 2)` —
100% zoom, not the previously-set zoom. -/
theorem load_resets_zoom_to_one (v : PDFViewer) (pages : List (ℚ × ℚ))
    (path : String) (t vh : Int) :
    (loadPdf v (some pages) path t vh).2 = true
    ∧ (loadPdf v (some pages) path t vh).1.zoom = 1
    ∧ (loadPdf v (some pages) path t vh).1.widgets.map displaySize
        = pages.map (fun p => (pyInt (p.1 * 1 * 2), pyInt (p.2 * 1 * 2))) := by
  refine ⟨rfl, ?_, ?_⟩
  · show (updateVisiblePages _ t vh).zoom = 1
    rw [updateVisiblePages_zoom]
  · show (updateVisiblePages _ t vh).widgets.map displaySize = _
    rw [updateVisiblePages_displaySizes]
    exact buildPlaceholders_displaySizes 1 0 pages

/-- C2 witness: the amended bounds at a concrete viewer with zoom 1. -/
theorem zoom_operations_bounds_witness :
    (1/4 ≤ (pinchTriggered {} GestureSt.started true 2 0 0 100).zoom
      ∧ (pinchTriggered {} GestureSt.started true 2 0 0 100).zoom ≤ 3)
    ∧ (1/4 ≤ (nativeGestureZoom {} (1/10) 0 0 100).zoom
      ∧ (nativeGestureZoom {} (1/10) 0 0 100).zoom ≤ 3)
    ∧ ((∃ k : ℤ, ({} : PDFViewer).zoom = (k : ℚ) / 4) →
        (1/4 ≤ (zoomIn {} 0 100).zoom ∧ (zoomIn {} 0 100).zoom ≤ 3
          ∧ 1/4 ≤ (zoomOut {} 0 100).zoom ∧ (zoomOut {} 0 100).zoom ≤ 3))
    ∧ (({} : PDFViewer).zoom = 3 → zoomIn {} 0 100 = {})
    ∧ (({} : PDFViewer).zoom = 1/4 → zoomOut {} 0 100 = {}) :=
  zoom_operations_bounds {} 0 100 0 2 (1/10) GestureSt.started true
    (by norm_num) (by norm_num)

theorem fireTimerIfDue_skip (v : PDFViewer) (now : ℚ) (t vh : Int)
    (hdl : v.timerActive = true → 150 ≤ v.timerDeadline) (hn : now ≤ 50) :
    fireTimerIfDue v now t vh = v := by
  unfold fireTimerIfDue
  rw [if_neg]
  rintro ⟨ha, hd⟩
  have := hdl ha
  linarith

theorem pinchStart_updated (v : PDFViewer) :
    pinchStart v GestureSt.updated = v := by
  simp [pinchStart]

theorem pinchFinish_updated (v : PDFViewer) (now : ℚ) (t vh : Int) :
    pinchFinish v GestureSt.updated now t vh = v := by
  simp [pinchFinish]

theorem pinchUpdate_throttled (v : PDFViewer) (s tu : ℚ) (t vh : Int)
    (hg : v.inGesture = true)
    (hdl : v.timerActive = true → 150 ≤ v.timerDeadline) (h0 : 0 ≤ tu) :
    (pinchTriggered v GestureSt.updated true s tu t vh).rerenderCount = v.rerenderCount
    ∧ (pinchTriggered v GestureSt.updated true s tu t vh).inGesture = true
    ∧ ((pinchTriggered v GestureSt.updated true s tu t vh).timerActive = true →
        150 ≤ (pinchTriggered v GestureSt.updated true s tu t vh).timerDeadline) := by
  unfold pinchTriggered
  rw [pinchStart_updated, pinchFinish_updated]
  unfold pinchScale
  rw [if_pos rfl]
  by_cases hb : 1/4 ≤ v.gestureBaseZoom * s ∧ v.gestureBaseZoom * s ≤ 3
  · rw [if_pos hb]
    unfold requestRerender
    rw [if_neg (by simp [hg])]
    by_cases hta : v.timerActive = true
    · rw [if_pos (show ({ v with zoom := v.gestureBaseZoom * s } :
          PDFViewer).timerActive = true from hta)]
      exact ⟨rfl, hg, fun _ => hdl hta⟩
    · rw [if_neg (show ¬ ({ v with zoom := v.gestureBaseZoom * s } :
          PDFViewer).timerActive = true from hta)]
      refine ⟨rfl, hg, fun _ => ?_⟩
      show (150 : ℚ) ≤ tu + 150
      linarith
  · rw [if_neg hb]
    exact ⟨rfl, hg, hdl⟩

theorem runGestureUpdates_invariant (t vh : Int) : ∀ (updates : List (ℚ × ℚ))
    (v : PDFViewer), v.inGesture = true →
    (v.timerActive = true → 150 ≤ v.timerDeadline) →
    (∀ u ∈ updates, 0 ≤ u.1 ∧ u.1 ≤ 50) →
    (runGestureUpdates t vh v updates).rerenderCount = v.rerenderCount
    ∧ (runGestureUpdates t vh v updates).inGesture = true
    ∧ ((runGestureUpdates t vh v updates).timerActive = true →
        150 ≤ (runGestureUpdates t vh v updates).timerDeadline) := by
  intro updates
  induction updates with
  | nil => intro v hg hdl _; exact ⟨rfl, hg, hdl⟩
  | cons u rest ih =>
    intro v hg hdl htimes
    have hu := htimes u (List.mem_cons_self u rest)
    have hskip : fireTimerIfDue v u.1 t vh = v := fireTimerIfDue_skip v u.1 t vh hdl hu.2
    have hstep := pinchUpdate_throttled v u.2 u.1 t vh hg hdl hu.1
    have htimes' : ∀ x ∈ rest, 0 ≤ x.1 ∧ x.1 ≤ 50 :=
      fun x hx => htimes x (List.mem_cons_of_mem u hx)
    have hrec := ih (pinchTriggered v GestureSt.updated true u.2 u.1 t vh)
      hstep.2.1 hstep.2.2 htimes'
    unfold runGestureUpdates
    rw [hskip]
    exact ⟨hrec.1.trans hstep.1, hrec.2.1, hrec.2.2⟩

theorem requestRerender_immediate_count (v : PDFViewer) (now : ℚ) (t vh : Int) :
    (requestRerender v true now t vh).rerenderCount = v.rerenderCount + 1 := by
  simp only [requestRerender]
  rw [if_pos (by simp)]
  cases hd : v.doc <;> simp [rerenderAllPages, updateVisiblePages, hd]

/-- C5: while `Gesturing` with the throttle timer idle, a burst of 10
`gesture_update` events all timestamped within the first 50 ms causes no
re-render call at all before the 150 ms window elapses (in particular at
most one), because each update only marks a re-render pending and the
single-shot timer, started at the first update, cannot expire before 150 ms;
`gesture_end` then forces exactly one additional immediate, non-throttled
re-render. -/
theorem gesture_throttle_burst (v : PDFViewer) (t vh : Int)
    (updates : List (ℚ × ℚ)) (tEnd sEnd : ℚ)
    (hg : v.inGesture = true) (hta : v.timerActive = false)
    (hlen : updates.length = 10)
    (htimes : ∀ u ∈ updates, 0 ≤ u.1 ∧ u.1 ≤ 50) :
    (runGestureUpdates t vh v updates).rerenderCount = v.rerenderCount
    ∧ (pinchTriggered (runGestureUpdates t vh v updates) GestureSt.finished false
        sEnd tEnd t vh).rerenderCount
      = (runGestureUpdates t vh v updates).rerenderCount + 1 := by
  have hinv := runGestureUpdates_invariant t vh updates v hg
    (fun h => absurd h (by rw [hta]; exact Bool.false_ne_true)) htimes
  refine ⟨hinv.1, ?_⟩
  have key : pinchTriggered (runGestureUpdates t vh v updates) GestureSt.finished false
      sEnd tEnd t vh
      = requestRerender
          { runGestureUpdates t vh v updates with inGesture := false } true tEnd t vh := by
    unfold pinchTriggered pinchStart pinchScale pinchFinish
    rw [if_neg (by decide : ¬ GestureSt.finished = GestureSt.started)]
    rw [if_neg (by decide : ¬ false = true)]
    rw [if_pos rfl]
  rw [key, requestRerender_immediate_count]

/-- C5 witness: the throttle property at a concrete in-gesture viewer and
the concrete 10-update burst `c5Burst`. -/
theorem gesture_throttle_burst_witness :
    (runGestureUpdates 0 100 { inGesture := true } c5Burst).rerenderCount
      = ({ inGesture := true } : PDFViewer).rerenderCount
    ∧ (pinchTriggered (runGestureUpdates 0 100 { inGesture := true } c5Burst)
        GestureSt.finished false 1 60 0 100).rerenderCount
      = (runGestureUpdates 0 100 { inGesture := true } c5Burst).rerenderCount + 1 :=
  gesture_throttle_burst { inGesture := true } 0 100 c5Burst 60 1 rfl rfl
    (by decide) (by with_unfolding_all decide)

theorem getD_map_of_lt (f : PDFPageWidget → PDFPageWidget) (ws : List PDFPageWidget)
    (i : Nat) (hi : i < ws.length) :
    (ws.map f).getD i {} = f (ws.getD i {}) := by
  rw [List.getD_eq_getElem?_getD, List.getD_eq_getElem?_getD, List.getElem?_map,
    List.getElem?_eq_getElem hi]
  rfl

theorem sweepStep_selection_none (pages : List (ℚ × ℚ)) (z : ℚ) (t vh y : Int)
    (w : PDFPageWidget) (hs : w.selectionStart = none) (he : w.selectionEnd = none) :
    (sweepStep pages z t vh y w).selectionStart = none
    ∧ (sweepStep pages z t vh y w).selectionEnd = none := by
  unfold sweepStep
  split
  · exact ⟨rfl, rfl⟩
  · split
    · unfold unloadPage
      split
      · exact ⟨rfl, rfl⟩
      · exact ⟨hs, he⟩
    · exact ⟨hs, he⟩

theorem sweepStep_zoom_of_unrendered (pages : List (ℚ × ℚ)) (z : ℚ) (t vh y : Int)
    (w : PDFPageWidget) (hr : w.isRendered = false) :
    (sweepStep pages z t vh y w).isRendered = true → (sweepStep pages z t vh y w).zoom = z := by
  intro hrend
  cases hin : pageInView t vh y w with
  | true =>
    simp [sweepStep, hin, hr, setPage]
  | false =>
    exfalso
    have : sweepStep pages z t vh y w = w := by simp [sweepStep, hin, hr]
    rw [this, hr] at hrend
    exact Bool.false_ne_true hrend

theorem placeholderReset_getD (pages : List (ℚ × ℚ)) (z : ℚ) (ws : List PDFPageWidget)
    (i : Nat) (hi : i < ws.length) :
    (placeholderReset pages z ws).getD i {}
      = setPlaceholder (ws.getD i {}) (ws.getD i {}).pageNumber
          (pyInt ((pageRectAt pages (ws.getD i {}).pageNumber).1 * z * 2))
          (pyInt ((pageRectAt pages (ws.getD i {}).pageNumber).2 * z * 2)) := by
  unfold placeholderReset
  exact getD_map_of_lt _ ws i hi

theorem placeholderReset_displaySizes (pages : List (ℚ × ℚ)) (z : ℚ)
    (ws : List PDFPageWidget) :
    (placeholderReset pages z ws).map displaySize
      = ws.map (fun w =>
          (pyInt ((pageRectAt pages w.pageNumber).1 * z * 2),
            pyInt ((pageRectAt pages w.pageNumber).2 * z * 2))) := by
  unfold placeholderReset
  rw [List.map_map]
  rfl

theorem placeholderReset_length (pages : List (ℚ × ℚ)) (z : ℚ)
    (ws : List PDFPageWidget) :
    (placeholderReset pages z ws).length = ws.length := by
  unfold placeholderReset
  exact List.length_map ws _

/-- C6: after every zoom change, `_rerender_all_pages` recomputes every
entry's `display_size` as `int(width * zoom * 2), int(height * zoom * 2)`
for the current zoom, resets every entry to `Placeholder` (clearing any
selection) before any render occurs, and only then re-renders the entries
whose spans intersect the buffered viewport range, at the new zoom; every
final entry carries no selection. -/
theorem rerender_all_pages_spec (v : PDFViewer) (d : Document) (t vh : Int) (i : Nat)
    (hdoc : v.doc = some d) (hi : i < v.widgets.length) :
    (rerenderAllPages v t vh).widgets.map displaySize
      = v.widgets.map (fun w =>
          (pyInt ((pageRectAt d.pages w.pageNumber).1 * v.zoom * 2),
            pyInt ((pageRectAt d.pages w.pageNumber).2 * v.zoom * 2)))
    ∧ ((placeholderReset d.pages v.zoom v.widgets).getD i {}).isRendered = false
    ∧ ((placeholderReset d.pages v.zoom v.widgets).getD i {}).selectionStart = none
    ∧ ((rerenderAllPages v t vh).widgets.getD i {}).selectionStart = none
    ∧ ((rerenderAllPages v t vh).widgets.getD i {}).selectionEnd = none
    ∧ ((rerenderAllPages v t vh).widgets.getD i {}).isRendered
        = inViewAt (placeholderReset d.pages v.zoom v.widgets) t vh i
    ∧ (((rerenderAllPages v t vh).widgets.getD i {}).isRendered = true →
        ((rerenderAllPages v t vh).widgets.getD i {}).zoom = v.zoom) := by
  have hre : (rerenderAllPages v t vh).widgets
      = (sweepFrom d.pages v.zoom t vh layoutTopMargin
          (placeholderReset d.pages v.zoom v.widgets)).1 := by
    simp [rerenderAllPages, updateVisiblePages, hdoc]
  have hlen : i < (placeholderReset d.pages v.zoom v.widgets).length := by
    rw [placeholderReset_length]
    exact hi
  have hgetD := placeholderReset_getD d.pages v.zoom v.widgets i hi
  have hstep := sweepFrom_getD d.pages v.zoom t vh
    (placeholderReset d.pages v.zoom v.widgets) layoutTopMargin i hlen
  have hrend : ((placeholderReset d.pages v.zoom v.widgets).getD i {}).isRendered = false := by
    rw [hgetD]
    rfl
  have hselS : ((placeholderReset d.pages v.zoom v.widgets).getD i {}).selectionStart = none := by
    rw [hgetD]
    rfl
  have hselE : ((placeholderReset d.pages v.zoom v.widgets).getD i {}).selectionEnd = none := by
    rw [hgetD]
    rfl
  have hsel := sweepStep_selection_none d.pages v.zoom t vh
    (widgetTopFrom layoutTopMargin (placeholderReset d.pages v.zoom v.widgets) i)
    ((placeholderReset d.pages v.zoom v.widgets).getD i {}) hselS hselE
  refine ⟨?_, hrend, hselS, ?_, ?_, ?_, ?_⟩
  · rw [hre, sweepFrom_displaySizes, placeholderReset_displaySizes]
  · rw [hre, hstep]
    exact hsel.1
  · rw [hre, hstep]
    exact hsel.2
  · rw [hre, hstep]
    exact sweepStep_isRendered d.pages v.zoom t vh _ _
      (fun h => absurd h (by rw [hrend]; exact Bool.false_ne_true))
  · rw [hre, hstep]
    exact sweepStep_zoom_of_unrendered d.pages v.zoom t vh _ _ hrend

/-- C6 witness: the concrete viewer `c6Viewer` (one 100×50 pt page, entry
rendered at zoom 1) rerendered after a zoom change to 3/2. -/
theorem rerender_all_pages_spec_witness :
    (rerenderAllPages c6Viewer 0 600).widgets.map displaySize
      = c6Viewer.widgets.map (fun w =>
          (pyInt ((pageRectAt c6Doc.pages w.pageNumber).1 * c6Viewer.zoom * 2),
            pyInt ((pageRectAt c6Doc.pages w.pageNumber).2 * c6Viewer.zoom * 2)))
    ∧ ((placeholderReset c6Doc.pages c6Viewer.zoom c6Viewer.widgets).getD 0 {}).isRendered
        = false
    ∧ ((placeholderReset c6Doc.pages c6Viewer.zoom c6Viewer.widgets).getD 0 {}).selectionStart
        = none
    ∧ ((rerenderAllPages c6Viewer 0 600).widgets.getD 0 {}).selectionStart = none
    ∧ ((rerenderAllPages c6Viewer 0 600).widgets.getD 0 {}).selectionEnd = none
    ∧ ((rerenderAllPages c6Viewer 0 600).widgets.getD 0 {}).isRendered
        = inViewAt (placeholderReset c6Doc.pages c6Viewer.zoom c6Viewer.widgets) 0 600 0
    ∧ (((rerenderAllPages c6Viewer 0 600).widgets.getD 0 {}).isRendered = true →
        ((rerenderAllPages c6Viewer 0 600).widgets.getD 0 {}).zoom = c6Viewer.zoom) :=
  rerender_all_pages_spec c6Viewer c6Doc 0 600 0 rfl (by decide)

/-- C7: for any selection on an entry whose page is present and any zoom in
`[0.25, 3.0]`, both text extraction and screenshot capture convert the
normalized (min/max) screen rectangle to document coordinates by dividing
each coordinate by `zoom * 2` (render scale 2), and multiplying the document
rectangle back by `zoom * 2` reproduces the original normalized screen
rectangle exactly — in particular within 1 pixel. -/
theorem selection_roundtrip (w : PDFPageWidget) (s e : Int × Int)
    (hp : w.pageLoaded = true) (hs : w.selectionStart = some s)
    (he : w.selectionEnd = some e) (hz1 : 1/4 ≤ w.zoom) (hz2 : w.zoom ≤ 3) :
    ∃ r : Rect,
      extractSelectedText w = some r
      ∧ captureSelectionScreenshot w = some r
      ∧ r.x0 * (w.zoom * 2) = ((min s.1 e.1 : Int) : ℚ)
      ∧ r.y0 * (w.zoom * 2) = ((min s.2 e.2 : Int) : ℚ)
      ∧ r.x1 * (w.zoom * 2) = ((max s.1 e.1 : Int) : ℚ)
      ∧ r.y1 * (w.zoom * 2) = ((max s.2 e.2 : Int) : ℚ)
      ∧ |r.x0 * (w.zoom * 2) - ((min s.1 e.1 : Int) : ℚ)| ≤ 1
      ∧ |r.y1 * (w.zoom * 2) - ((max s.2 e.2 : Int) : ℚ)| ≤ 1 := by
  have hzpos : (0 : ℚ) < w.zoom := lt_of_lt_of_le (by norm_num) hz1
  have hzne : w.zoom * 2 ≠ 0 := by positivity
  refine ⟨{ x0 := ((min s.1 e.1 : Int) : ℚ) / (w.zoom * 2)
            y0 := ((min s.2 e.2 : Int) : ℚ) / (w.zoom * 2)
            x1 := ((max s.1 e.1 : Int) : ℚ) / (w.zoom * 2)
            y1 := ((max s.2 e.2 : Int) : ℚ) / (w.zoom * 2) }, ?_, ?_, ?_, ?_, ?_, ?_, ?_, ?_⟩
  · simp [extractSelectedText, hp, hs, he]
  · simp [captureSelectionScreenshot, hp, hs, he]
  · exact div_mul_cancel₀ _ hzne
  · exact div_mul_cancel₀ _ hzne
  · exact div_mul_cancel₀ _ hzne
  · exact div_mul_cancel₀ _ hzne
  · rw [div_mul_cancel₀ _ hzne]
    simp
  · rw [div_mul_cancel₀ _ hzne]
    simp

/-- C7 witness: the round trip at the concrete widget `c7Widget` (zoom 1/2,
selection from (10, 20) to (30, 5)). -/
theorem selection_roundtrip_witness :
    ∃ r : Rect,
      extractSelectedText c7Widget = some r
      ∧ captureSelectionScreenshot c7Widget = some r
      ∧ r.x0 * (c7Widget.zoom * 2) = ((min 10 30 : Int) : ℚ)
      ∧ r.y0 * (c7Widget.zoom * 2) = ((min 20 5 : Int) : ℚ)
      ∧ r.x1 * (c7Widget.zoom * 2) = ((max 10 30 : Int) : ℚ)
      ∧ r.y1 * (c7Widget.zoom * 2) = ((max 20 5 : Int) : ℚ)
      ∧ |r.x0 * (c7Widget.zoom * 2) - ((min 10 30 : Int) : ℚ)| ≤ 1
      ∧ |r.y1 * (c7Widget.zoom * 2) - ((max 20 5 : Int) : ℚ)| ≤ 1 :=
  selection_roundtrip c7Widget (10, 20) (30, 5) rfl rfl rfl
    (by show (1 : ℚ)/4 ≤ 1/2; norm_num) (by show (1 : ℚ)/2 ≤ 3; norm_num)

/-- C8 counterexample: a placeholder widget always carries a pixmap (the
gray placeholder installed by `set_placeholder`), and `mousePressEvent`
never checks `_is_rendered`, so beginning a selection on a `Placeholder`
entry is *not* ignored: the selection start is recorded. -/
theorem begin_selection_on_placeholder_sets_selection :
    (setPlaceholder ({} : PDFPageWidget) 0 100 200).isRendered = false
    ∧ ((mousePressEvent (setPlaceholder {} 0 100 200) true (5, 7)).selectionStart).isSome
        = true
    ∧ (mousePressEvent (setPlaceholder {} 0 100 200) true (5, 7)).selectionStart
        = some (5, 7) := by
  with_unfolding_all decide

/-- C8 (amended): a left press on any entry that shows a pixmap — rendered
or placeholder alike — records a degenerate selection (start = end at the
press point adjusted by the label centering offset); no error is raised, and
on an entry whose page object is absent (a `Placeholder`) the subsequent
text extraction and screenshot capture are silent no-ops returning
nothing. -/
theorem mouse_press_records_selection (w : PDFPageWidget) (pos pm : Int × Int)
    (hpm : w.pixmap = some pm) :
    (mousePressEvent w true pos).selectionStart
      = some (pos.1 - Int.fdiv (w.placeholderW - pm.1) 2,
          pos.2 - Int.fdiv (w.placeholderH - pm.2) 2)
    ∧ (mousePressEvent w true pos).selectionEnd = (mousePressEvent w true pos).selectionStart
    ∧ (w.pageLoaded = false →
        extractSelectedText (mousePressEvent w true pos) = none
        ∧ captureSelectionScreenshot (mousePressEvent w true pos) = none) := by
  have key : mousePressEvent w true pos
      = { w with
          isSelecting := true
          selectionStart := some (pos.1 - Int.fdiv (w.placeholderW - pm.1) 2,
            pos.2 - Int.fdiv (w.placeholderH - pm.2) 2)
          selectionEnd := some (pos.1 - Int.fdiv (w.placeholderW - pm.1) 2,
            pos.2 - Int.fdiv (w.placeholderH - pm.2) 2) } := by
    simp [mousePressEvent, hpm]
  rw [key]
  refine ⟨rfl, rfl, fun hpl => ?_⟩
  constructor
  · simp [extractSelectedText, hpl]
  · simp [captureSelectionScreenshot, hpl]

/-- C8 witness: the amended claim at a concrete placeholder widget. -/
theorem mouse_press_records_selection_witness :
    (mousePressEvent (setPlaceholder {} 0 100 200) true (5, 7)).selectionStart
      = some ((5 : Int) - Int.fdiv ((setPlaceholder ({} : PDFPageWidget) 0 100 200).placeholderW - 100) 2,
          (7 : Int) - Int.fdiv ((setPlaceholder ({} : PDFPageWidget) 0 100 200).placeholderH - 200) 2)
    ∧ (mousePressEvent (setPlaceholder {} 0 100 200) true (5, 7)).selectionEnd
      = (mousePressEvent (setPlaceholder {} 0 100 200) true (5, 7)).selectionStart
    ∧ ((setPlaceholder ({} : PDFPageWidget) 0 100 200).pageLoaded = false →
        extractSelectedText (mousePressEvent (setPlaceholder {} 0 100 200) true (5, 7)) = none
        ∧ captureSelectionScreenshot
            (mousePressEvent (setPlaceholder {} 0 100 200) true (5, 7)) = none) :=
  mouse_press_records_selection (setPlaceholder {} 0 100 200) (5, 7) (100, 200) rfl

/-- C9: `get_page_widget` returns the entry at index `i` for every
`0 ≤ i < page count`, and fails (returns nothing, the embedded `OutOfRange`)
for every index outside that range. -/
theorem entry_at_spec (ws : List PDFPageWidget) (i : Int) :
    (0 ≤ i → i < (ws.length : Int) →
      ∃ w, getPageWidget ws i = some w ∧ ws.get? i.toNat = some w)
    ∧ (i < 0 ∨ (ws.length : Int) ≤ i → getPageWidget ws i = none) := by
  constructor
  · intro h0 h1
    have hlt : i.toNat < ws.length := by omega
    refine ⟨ws.get ⟨i.toNat, hlt⟩, ?_, ?_⟩
    · unfold getPageWidget
      rw [if_pos ⟨h0, h1⟩]
      exact List.get?_eq_get hlt
    · exact List.get?_eq_get hlt
  · intro h
    unfold getPageWidget
    rw [if_neg]
    rintro ⟨h0, h1⟩
    rcases h with h | h <;> omega

/-- C9 witness: a one-entry container, index 0 in range and index 5 out of
range. -/
theorem entry_at_spec_witness :
    (∃ w, getPageWidget [({} : PDFPageWidget)] 0 = some w
      ∧ [({} : PDFPageWidget)].get? (0 : Int).toNat = some w)
    ∧ getPageWidget [({} : PDFPageWidget)] 5 = none :=
  ⟨(entry_at_spec [({} : PDFPageWidget)] 0).1 (by decide) (by decide),
    (entry_at_spec [({} : PDFPageWidget)] 5).2 (Or.inr (by decide))⟩
